import Mathlib

/-!
Shallow embedding of the yt3 variant of the twitterparser repository
(src/yt3.py): the PubSubHubbub subscribe/unsubscribe flow, the webhook
verifier/dispatcher, the JSON-file-backed subscription and seen-video
stores, and the keyword poller.  External effects (HTTP requests to the
hub and to the search API, handle resolution, transcript keyword checks)
are passed in as explicit outcomes; state is passed explicitly and the
side effects a call performs are recorded as an ordered event trace.
-/

namespace Yt3

/-- Value stored per channel in `active_subscriptions`:
the dict `\x7b'keyword': keyword, 'callback_url': callback_url\x7d`
written by `subscribe_to_youtube_channel` (src/yt3.py line 342).
`keyword` is `None` (here `none`) when no keyword filter is configured. -/
structure Sub where
  keyword : Option String
  callback_url : String
deriving DecidableEq, Repr

/-- The subscription store mapping, a Python dict keyed by channel id.
Modelled as an association list in insertion order with distinct keys
maintained by the operations below (Python dict semantics). -/
abbrev SubsMap := List (String × Sub)

/-- Python `k in d`. -/
def mapMem : SubsMap → String → Bool
  | [], _ => false
  | p :: rest, k => p.1 = k || mapMem rest k

/-- Python `d[k] = v`: overwrite in place when the key exists (size and key
order unchanged), otherwise append at the end. -/
def mapInsert (m : SubsMap) (k : String) (v : Sub) : SubsMap :=
  if mapMem m k then
    m.map (fun p => if p.1 = k then (k, v) else p)
  else
    m ++ [(k, v)]

/-- Python `d[k]` / `d.get(k)` as an optional lookup. -/
def mapLookup : SubsMap → String → Option Sub
  | [], _ => none
  | p :: rest, k => if p.1 = k then some p.2 else mapLookup rest k

/-- Python `del d[k]`. -/
def mapDelete : SubsMap → String → SubsMap
  | [], _ => []
  | p :: rest, k => if p.1 = k then mapDelete rest k else p :: mapDelete rest k

/-- Observable state of a JSON store file when a load is attempted:
the file may be absent (`open` raises `FileNotFoundError`), present but
unreadable as JSON (truncated or corrupt content, `json.load` raises),
or present and parsed to a value. -/
inductive JFile (α : Type) where
  | absent : JFile α
  | unreadable (raw : String) : JFile α
  | parsed (v : α) : JFile α
deriving DecidableEq, Repr

/-- `load_subscriptions` (src/yt3.py lines 21-26): `json.load` the
subscriptions file, returning `\x7b\x7d` on any exception. -/
def load_subscriptions (f : JFile SubsMap) : SubsMap :=
  match f with
  | JFile.parsed v => v
  | _ => []

/-- `load_seen_videos` (src/yt3.py lines 42-48): `set(json.load(f))` from
the seen-videos file, the empty set on any exception.  The resulting set
is modelled as the list of ids (membership is what the poller uses). -/
def load_seen_videos (f : JFile (List String)) : List String :=
  match f with
  | JFile.parsed v => v
  | _ => []

/-- An HTTP response as built by the webhook handler
(`flask.Response`): Flask defaults are status 200 and
mimetype `text/html` unless overridden. -/
structure HttpResponse where
  status : Nat
  body : String
  mimetype : String
deriving DecidableEq, Repr

/-- GET branch of `youtube_webhook` (src/yt3.py lines 377-382).
`challenge` is `request.args.get('hub.challenge')`: `none` when the query
parameter is absent.  Python truthiness: `if challenge:` is false for both
`None` and the empty string, so only a nonempty token is echoed. -/
def youtube_webhook_get (challenge : Option String) : HttpResponse :=
  match challenge with
  | some c =>
      if c = "" then ⟨400, "Invalid request", "text/html"⟩
      else ⟨200, c, "text/plain"⟩
  | none => ⟨400, "Invalid request", "text/html"⟩

/-- What `ET.fromstring` plus the namespaced lookups observe in a POST
body (src/yt3.py lines 387-394):
* `malformed`: `ET.fromstring` raises (not well-formed XML);
* `noEntry`: well-formed, but `root.find('atom:entry', ns)` is `None`;
* `childlessEntry`: the entry element exists but has no child elements,
  so the Python element is falsy and `if entry:` skips the block;
* `entry v t c`: the entry has children; each namespaced field lookup
  (`yt:videoId`, `atom:title`, `yt:channelId`) yields the text or `none`
  when the subelement is missing (in which case `.text` raises
  `AttributeError`). -/
inductive XmlBody where
  | malformed : XmlBody
  | noEntry : XmlBody
  | childlessEntry : XmlBody
  | entry (videoId : Option String) (title : Option String)
      (channelId : Option String) : XmlBody
deriving DecidableEq, Repr

/-- Result of the POST branch of `youtube_webhook`: the HTTP response,
whether the subscription store was reloaded from disk
(`load_subscriptions` on line 400), whether the external keyword-match
capability `check_video_for_keyword` was invoked, and its result. -/
structure PostResult where
  resp : HttpResponse
  storeRead : Bool
  kwCheckInvoked : Bool
  matched : Bool
deriving DecidableEq, Repr

/-- POST branch of `youtube_webhook` (src/yt3.py lines 384-410).
`subsFile` is the on-disk state of the subscriptions file at the moment
the handler reloads it; `checkKw videoId kw` is the boolean outcome of
the external `check_video_for_keyword` call (that function catches its
own exceptions and returns a bool, so it never raises here).  Any
exception inside the `try` block — malformed XML from `ET.fromstring`,
or `AttributeError` from `.text` on a missing namespaced field — is
caught and answered with status 500. -/
def youtube_webhook_post (body : XmlBody) (subsFile : JFile SubsMap)
    (checkKw : String → String → Bool) : PostResult :=
  match body with
  | XmlBody.malformed => ⟨⟨500, "Error", "text/html"⟩, false, false, false⟩
  | XmlBody.noEntry => ⟨⟨200, "OK", "text/html"⟩, false, false, false⟩
  | XmlBody.childlessEntry => ⟨⟨200, "OK", "text/html"⟩, false, false, false⟩
  | XmlBody.entry vid title cid =>
    match vid, title, cid with
    | some v, some _, some c =>
        let subs := load_subscriptions subsFile
        match mapLookup subs c with
        | some s =>
            match s.keyword with
            | some kw =>
                if kw = "" then ⟨⟨200, "OK", "text/html"⟩, true, false, false⟩
                else ⟨⟨200, "OK", "text/html"⟩, true, true, checkKw v kw⟩
            | none => ⟨⟨200, "OK", "text/html"⟩, true, false, false⟩
        | none => ⟨⟨200, "OK", "text/html"⟩, true, false, false⟩
    | _, _, _ => ⟨⟨500, "Error", "text/html"⟩, false, false, false⟩

/-- Whether processing the POST body raises inside the `try` block:
true exactly for malformed XML and for an entry (with children) missing
one of the three namespaced fields. -/
def bodyRaises : XmlBody → Bool
  | XmlBody.malformed => true
  | XmlBody.entry vid title cid => !(vid.isSome && title.isSome && cid.isSome)
  | _ => false

/-- Externally visible side effects of the subscription manager, in the
order the code performs them: a write of the subscriptions file
(`save_subscriptions`), a subscribe POST to the hub carrying the topic
url, callback url and lease seconds, or an unsubscribe POST carrying the
topic url and callback url. -/
inductive Ev where
  | storeSave (m : SubsMap) : Ev
  | hubSubscribe (topic : String) (callback : String) (lease : Nat) : Ev
  | hubUnsubscribe (topic : String) (callback : String) : Ev
deriving DecidableEq, Repr

/-- Topic url built for a channel id (src/yt3.py lines 198 and 347). -/
def topicUrl (channel_id : String) : String :=
  "https://www.youtube.com/xml/feeds/videos.xml?channel_id=" ++ channel_id

/-- The dict returned by `subscribe_to_youtube_channel`. -/
structure SubscribeResult where
  success : Bool
  channel_id : Option String
  error : Option String
deriving DecidableEq, Repr

/-- Result of a `subscribe_to_youtube_channel` call: its return value, the
subscription store after the call, and the ordered trace of external
effects it performed. -/
structure SubscribeOutcome where
  result : SubscribeResult
  subs : SubsMap
  trace : List Ev
deriving DecidableEq, Repr

/-- `subscribe_to_youtube_channel` (src/yt3.py lines 332-369).
`resolve` is the outcome of `get_channel_id_from_handle handle` (an
external two-request lookup; `none` when the handle does not resolve).
`hubOk` is whether the hub subscribe POST succeeds with a 2xx status
(`requests.post` plus `raise_for_status`); `subs` is the in-memory
`active_subscriptions` before the call.  The code stores the
subscription entry and saves the file (lines 342-343) before issuing the
hub request (line 358); a hub failure is caught and reported in the
return value only. -/
def subscribe_to_youtube_channel (resolve : Option String) (hubOk : Bool)
    (callback_url : String) (keyword : Option String) (subs : SubsMap) :
    SubscribeOutcome :=
  match resolve with
  | none => ⟨⟨false, none, some ("Could not find channel")⟩, subs, []⟩
  | some channel_id =>
      let subs1 := mapInsert subs channel_id ⟨keyword, callback_url⟩
      let evs := [Ev.storeSave subs1,
        Ev.hubSubscribe (topicUrl channel_id) callback_url 432000]
      if hubOk then
        ⟨⟨true, some channel_id, none⟩, subs1, evs⟩
      else
        ⟨⟨false, none, some ("RequestException")⟩, subs1, evs⟩

/-- The check `channel_identifier.startswith('UC')` (src/yt3.py
line 191), on the character sequence of the identifier. -/
def startsWithUC (s : String) : Bool :=
  s.data.take 2 == [ 'U', 'C' ]

/-- The channel id `unsubscribe_from_youtube_channel` works with
(src/yt3.py lines 189-196): the identifier itself when it already starts
with the channel-id prefix `UC`, otherwise the result of resolving it as
a handle (`none` when resolution fails). -/
def resolveIdentifier (channel_identifier : String)
    (resolve : Option String) : Option String :=
  if startsWithUC channel_identifier then some channel_identifier
  else resolve

/-- Result of an `unsubscribe_from_youtube_channel` call: the boolean
return value, the subscription store after the call, and the ordered
trace of external effects. -/
structure UnsubOutcome where
  ret : Bool
  subs : SubsMap
  trace : List Ev
deriving DecidableEq, Repr

/-- `unsubscribe_from_youtube_channel` (src/yt3.py lines 183-217).
If the identifier is a handle that fails to resolve, the function
returns false before contacting the hub.  Otherwise it POSTs the
unsubscribe request; on hub success (`hubOk`) it deletes the store entry
when present (a no-op otherwise) and saves, returning true; any
exception from the hub call is caught and the function returns false
with the store untouched. -/
def unsubscribe_from_youtube_channel (channel_identifier : String)
    (resolve : Option String) (hubOk : Bool) (callback_url : String)
    (subs : SubsMap) : UnsubOutcome :=
  match resolveIdentifier channel_identifier resolve with
  | none => ⟨false, subs, []⟩
  | some channel_id =>
      let hubEv := Ev.hubUnsubscribe (topicUrl channel_id) callback_url
      if hubOk then
        if mapMem subs channel_id then
          let subs1 := mapDelete subs channel_id
          ⟨true, subs1, [hubEv, Ev.storeSave subs1]⟩
        else
          ⟨true, subs, [hubEv]⟩
      else
        ⟨false, subs, [hubEv]⟩

/-- One item returned by the search API in `poll_youtube_for_keyword`
(src/yt3.py lines 257-270): the fields the loop reads from
`item['id']['videoId']` and `item['snippet']`. -/
structure SearchItem where
  videoId : String
  title : String
  channelTitle : String
  publishedAt : String
deriving DecidableEq, Repr

/-- Events of one poll cycle, in order: a rewrite of the seen-videos file
(`save_seen_videos`, carrying the set written) or the emission of a
notification record for a video id. -/
inductive PollEv where
  | seenSave (s : List String) : PollEv
  | notify (videoId : String) : PollEv
deriving DecidableEq, Repr

/-- The per-item body of one poll cycle of `poll_youtube_for_keyword`
(src/yt3.py lines 257-276): for each search result in order, skip it if
already seen, otherwise add it to the seen set, persist the set, and
emit the notification.  Returns the final seen set and the ordered event
trace.  The seen set is modelled as a list without duplicates; insertion
is cons (guarded by the membership test, mirroring Python set `add`). -/
def pollCycle (items : List SearchItem) (seen : List String) :
    List String × List PollEv :=
  match items with
  | [] => (seen, [])
  | item :: rest =>
      if item.videoId ∈ seen then
        pollCycle rest seen
      else
        let seen1 := item.videoId :: seen
        let r := pollCycle rest seen1
        (r.1, PollEv.seenSave seen1 :: PollEv.notify item.videoId :: r.2)

/-- Two successive poll cycles: the second starts from the seen set the
first produced.  Returns the final seen set and the concatenated trace. -/
def twoCycles (items1 items2 : List SearchItem) (seen : List String) :
    List String × List PollEv :=
  let r1 := pollCycle items1 seen
  let r2 := pollCycle items2 r1.1
  (r2.1, r1.2 ++ r2.2)

/-- Checks that every notification in a trace concerns a video id that
was contained in the most recently persisted seen set (`persisted` being
the on-disk set when the trace starts): persisted-before-notify
ordering. -/
def savedBeforeNotified (persisted : List String) : List PollEv → Bool
  | [] => true
  | PollEv.seenSave s :: rest => savedBeforeNotified s rest
  | PollEv.notify v :: rest =>
      decide (v ∈ persisted) && savedBeforeNotified persisted rest

/-- Number of notifications for a given video id in a trace. -/
def countNotify (v : String) : List PollEv → Nat
  | [] => 0
  | PollEv.seenSave _ :: rest => countNotify v rest
  | PollEv.notify w :: rest =>
      (if w = v then 1 else 0) + countNotify v rest

/-- Number of store writes in a trace that first add a given video id:
saves whose written set contains the id while the previously persisted
set (initially `persisted`) did not. -/
def countSaveAdding (v : String) (persisted : List String) :
    List PollEv → Nat
  | [] => 0
  | PollEv.seenSave s :: rest =>
      (if v ∈ s ∧ v ∉ persisted then 1 else 0) + countSaveAdding v s rest
  | PollEv.notify _ :: rest => countSaveAdding v persisted rest

/-- The set on disk after a trace runs, starting from `persisted`:
the content of the last save, if any. -/
def lastSaved (persisted : List String) : List PollEv → List String
  | [] => persisted
  | PollEv.seenSave s :: rest => lastSaved s rest
  | PollEv.notify _ :: rest => lastSaved persisted rest

/-- Whether a subscription-manager trace contains no write of the
subscriptions file. -/
def noStoreSave (t : List Ev) : Bool :=
  t.all (fun e =>
    match e with
    | Ev.storeSave _ => false
    | _ => true)

/-! ### Lemmas about the dict operations -/

/-- Overwriting an existing key leaves the key sequence unchanged. -/
theorem mapInsert_keys_of_mem (m : SubsMap) (k : String) (v : Sub)
    (h : mapMem m k = true) :
    (mapInsert m k v).map Prod.fst = m.map Prod.fst := by
  have hfst : ∀ p : String × Sub,
      (if p.1 = k then (k, v) else p).1 = p.1 := by
    intro p
    by_cases hp : p.1 = k
    · simp [hp]
    · simp [hp]
  simp only [mapInsert, h, if_pos, List.map_map]
  exact List.map_congr_left (fun p _ => hfst p)

/-- Overwriting an existing key leaves the size unchanged. -/
theorem mapInsert_length_of_mem (m : SubsMap) (k : String) (v : Sub)
    (h : mapMem m k = true) :
    (mapInsert m k v).length = m.length := by
  simp [mapInsert, h]

/-- After an insert, looking up the inserted key yields the new value. -/
theorem mapLookup_mapInsert (m : SubsMap) (k : String) (v : Sub) :
    mapLookup (mapInsert m k v) k = some v := by
  induction m with
  | nil => simp [mapInsert, mapMem, mapLookup]
  | cons p rest ih =>
      by_cases hp : p.1 = k
      · simp [mapInsert, mapMem, mapLookup, hp]
      · by_cases hr : mapMem rest k = true
        · have h1 : mapInsert (p :: rest) k v
              = p :: rest.map (fun q => if q.1 = k then (k, v) else q) := by
            simp [mapInsert, mapMem, hp, hr]
          have h2 : mapInsert rest k v
              = rest.map (fun q => if q.1 = k then (k, v) else q) := by
            simp [mapInsert, hr]
          rw [h1, mapLookup, if_neg hp, ← h2, ih]
        · have hrf : mapMem rest k = false := by
            cases hmem : mapMem rest k
            · rfl
            · exact absurd hmem hr
          have h1 : mapInsert (p :: rest) k v = p :: (rest ++ [(k, v)]) := by
            simp [mapInsert, mapMem, hp, hrf]
          have h2 : mapInsert rest k v = rest ++ [(k, v)] := by
            simp [mapInsert, hrf]
          rw [h1, mapLookup, if_neg hp, ← h2, ih]

/-! ### Lemmas about one poll cycle -/

/-- An id already in the seen set is still in the final seen set. -/
theorem pollCycle_mem_final (items : List SearchItem)
    (seen : List String) (v : String) (h : v ∈ seen) :
    v ∈ (pollCycle items seen).1 := by
  induction items generalizing seen with
  | nil => simpa [pollCycle] using h
  | cons item rest ih =>
      by_cases hmem : item.videoId ∈ seen
      · simpa [pollCycle, hmem] using ih seen h
      · simp only [pollCycle, hmem, if_neg]
        exact ih (item.videoId :: seen) (List.mem_cons_of_mem _ h)

/-- An id already in the seen set is never notified during a cycle. -/
theorem countNotify_of_seen (items : List SearchItem)
    (seen : List String) (v : String) (h : v ∈ seen) :
    countNotify v (pollCycle items seen).2 = 0 := by
  induction items generalizing seen with
  | nil => simp [pollCycle, countNotify]
  | cons item rest ih =>
      by_cases hmem : item.videoId ∈ seen
      · simpa [pollCycle, hmem] using ih seen h
      · have hne : item.videoId ≠ v := fun he => hmem (he ▸ h)
        simp only [pollCycle, hmem, if_neg, countNotify, hne, if_false,
          Nat.zero_add]
        exact ih (item.videoId :: seen) (List.mem_cons_of_mem _ h)

/-- An id already in the seen set is never first-added by a save during
a cycle. -/
theorem countSaveAdding_of_seen (items : List SearchItem)
    (seen : List String) (v : String) (h : v ∈ seen) :
    countSaveAdding v seen (pollCycle items seen).2 = 0 := by
  induction items generalizing seen with
  | nil => simp [pollCycle, countSaveAdding]
  | cons item rest ih =>
      by_cases hmem : item.videoId ∈ seen
      · simpa [pollCycle, hmem] using ih seen h
      · simp only [pollCycle, hmem, if_neg, countSaveAdding, h,
          not_true, and_false, if_false, Nat.zero_add]
        exact ih (item.videoId :: seen) (List.mem_cons_of_mem _ h)

/-- The set on disk after a cycle's trace is the cycle's final seen
set. -/
theorem lastSaved_pollCycle (items : List SearchItem)
    (seen : List String) :
    lastSaved seen (pollCycle items seen).2 = (pollCycle items seen).1 := by
  induction items generalizing seen with
  | nil => simp [pollCycle, lastSaved]
  | cons item rest ih =>
      by_cases hmem : item.videoId ∈ seen
      · simpa [pollCycle, hmem] using ih seen
      · simp only [pollCycle, hmem, if_neg, lastSaved]
        exact ih (item.videoId :: seen)

/-- Notification counts add over concatenated traces. -/
theorem countNotify_append (v : String) (t1 t2 : List PollEv) :
    countNotify v (t1 ++ t2) = countNotify v t1 + countNotify v t2 := by
  induction t1 with
  | nil => simp [countNotify]
  | cons e rest ih =>
      cases e with
      | seenSave s => simpa [countNotify] using ih
      | notify w => simp [countNotify, ih, Nat.add_assoc]

/-- First-adding-save counts add over concatenated traces, the second
trace starting from the set persisted at the end of the first. -/
theorem countSaveAdding_append (v : String) (p : List String)
    (t1 t2 : List PollEv) :
    countSaveAdding v p (t1 ++ t2)
      = countSaveAdding v p t1
        + countSaveAdding v (lastSaved p t1) t2 := by
  induction t1 generalizing p with
  | nil => simp [countSaveAdding, lastSaved]
  | cons e rest ih =>
      cases e with
      | seenSave s => simp [countSaveAdding, lastSaved, ih s, Nat.add_assoc]
      | notify w => simp [countSaveAdding, lastSaved, ih p]

/-- An id not yet seen but returned by the search is notified exactly
once during the cycle, first-added by exactly one save, and is in the
final seen set. -/
theorem pollCycle_new (items : List SearchItem) (seen : List String)
    (v : String) (hv : v ∉ seen)
    (hin : v ∈ items.map SearchItem.videoId) :
    countNotify v (pollCycle items seen).2 = 1 ∧
    countSaveAdding v seen (pollCycle items seen).2 = 1 ∧
    v ∈ (pollCycle items seen).1 := by
  induction items generalizing seen with
  | nil => simp at hin
  | cons item rest ih =>
      by_cases heq : item.videoId = v
      · have hv1 : v ∈ v :: seen := List.mem_cons_self _ _
        have h1 := countNotify_of_seen rest (v :: seen) v hv1
        have h2 := countSaveAdding_of_seen rest (v :: seen) v hv1
        have h3 := pollCycle_mem_final rest (v :: seen) v hv1
        refine ⟨?_, ?_, ?_⟩
        · simp [pollCycle, heq, hv, countNotify, h1]
        · simp [pollCycle, heq, hv, countSaveAdding, countNotify, hv1, h2]
        · simpa [pollCycle, heq, hv] using h3
      · have hin2 : v ∈ rest.map SearchItem.videoId := by
          rw [List.map_cons] at hin
          cases List.mem_cons.mp hin with
          | inl h => exact absurd h.symm heq
          | inr h => exact h
        by_cases hmem : item.videoId ∈ seen
        · have h := ih seen hv hin2
          simpa [pollCycle, hmem] using h
        · have hv1 : v ∉ item.videoId :: seen := by
            intro hc
            cases List.mem_cons.mp hc with
            | inl h => exact heq h.symm
            | inr h => exact hv h
          obtain ⟨h1, h2, h3⟩ := ih (item.videoId :: seen) hv1 hin2
          refine ⟨?_, ?_, ?_⟩
          · simp [pollCycle, hmem, countNotify, heq, h1]
          · simp [pollCycle, hmem, countSaveAdding, countNotify, hv1, h2]
          · simp only [pollCycle, hmem, if_neg]
            exact h3

/-! ### Claim theorems -/

/-- C1 counterexample: with a handle resolving to channel id `UCa` and a
hub subscribe request that fails, the claim "if the hub request fails,
no store write occurs" is false: the store write both happened (the
resulting store holds the entry) and preceded the hub request in the
effect trace. -/
theorem C1_counterexample :
    (subscribe_to_youtube_channel (some ("UCa")) false ("cb") none []).subs
        = [(("UCa"), Sub.mk none ("cb"))] ∧
    (subscribe_to_youtube_channel (some ("UCa")) false ("cb") none []).trace
        = [Ev.storeSave [(("UCa"), Sub.mk none ("cb"))],
           Ev.hubSubscribe (topicUrl ("UCa")) ("cb") 432000] :=
  ⟨rfl, rfl⟩

/-- C1 (amended): for every handle that resolves to a channel id,
`subscribe_to_youtube_channel` writes the subscription entry and saves
the store before issuing the hub subscribe request, and it does so
regardless of the hub outcome: the store write persists even when the
hub request fails. -/
theorem C1_store_write_precedes_hub (channel_id callback_url : String)
    (keyword : Option String) (hubOk : Bool) (subs : SubsMap) :
    (subscribe_to_youtube_channel (some channel_id) hubOk callback_url
        keyword subs).subs
      = mapInsert subs channel_id ⟨keyword, callback_url⟩ ∧
    (subscribe_to_youtube_channel (some channel_id) hubOk callback_url
        keyword subs).trace
      = [Ev.storeSave (mapInsert subs channel_id ⟨keyword, callback_url⟩),
         Ev.hubSubscribe (topicUrl channel_id) callback_url 432000] := by
  cases hubOk
  · exact ⟨rfl, rfl⟩
  · exact ⟨rfl, rfl⟩

/-- C2 counterexample: a malformed-XML body and a body whose entry is
missing the namespaced channel-id field are answered with status 500,
not the 200 no-match answer the claim asserts. -/
theorem C2_counterexample :
    (youtube_webhook_post XmlBody.malformed JFile.absent
        (fun _ _ => false)).resp.status = 500 ∧
    (youtube_webhook_post
        (XmlBody.entry (some ("v1")) (some ("t1")) none) JFile.absent
        (fun _ _ => false)).resp.status = 500 :=
  ⟨rfl, rfl⟩

/-- C2 (amended): the POST handler responds 500 exactly when processing
the body raises — on malformed XML or on an entry missing one of the
namespaced fields — and 200 otherwise; a channel id not present in the
Subscription Store is non-fatal: the handler responds 200 with no
keyword check invoked. -/
theorem C2_post_status (body : XmlBody) (subsFile : JFile SubsMap)
    (checkKw : String → String → Bool) :
    ((youtube_webhook_post body subsFile checkKw).resp.status
        = if bodyRaises body then 500 else 200) ∧
    (∀ v t c, mapLookup (load_subscriptions subsFile) c = none →
      youtube_webhook_post (XmlBody.entry (some v) (some t) (some c))
          subsFile checkKw
        = ⟨⟨200, "OK", "text/html"⟩, true, false, false⟩) := by
  constructor
  · cases body with
    | malformed => rfl
    | noEntry => rfl
    | childlessEntry => rfl
    | entry vid title cid =>
        cases vid with
        | none => cases title <;> cases cid <;> rfl
        | some v =>
            cases title with
            | none => cases cid <;> rfl
            | some t =>
                cases cid with
                | none => rfl
                | some c =>
                    simp only [youtube_webhook_post, bodyRaises,
                      Option.isSome_some, Bool.and_self, Bool.not_true,
                      if_false]
                    cases hl : mapLookup (load_subscriptions subsFile) c with
                    | none => simp [hl]
                    | some s =>
                        cases hk : s.keyword with
                        | none => simp [hl, hk]
                        | some kw =>
                            by_cases he : kw = ""
                            · simp [hl, hk, he]
                            · simp [hl, hk, he]
  · intro v t c hc
    simp [youtube_webhook_post, hc]

/-- C2 witness: at concrete inputs, a body with no entry element is
answered 200, and an entry referencing channel id `UCx` while the store
file is absent (empty store) is answered 200 with no store hit and no
keyword check. -/
theorem C2_post_status_witness :
    (youtube_webhook_post XmlBody.noEntry JFile.absent
        (fun _ _ => false)).resp.status = 200 ∧
    youtube_webhook_post
        (XmlBody.entry (some ("v")) (some ("t")) (some ("UCx")))
        JFile.absent (fun _ _ => false)
      = ⟨⟨200, "OK", "text/html"⟩, true, false, false⟩ := by
  constructor
  · have h := (C2_post_status XmlBody.noEntry JFile.absent
      (fun _ _ => false)).1
    simpa using h
  · exact (C2_post_status XmlBody.noEntry JFile.absent
      (fun _ _ => false)).2 ("v") ("t") ("UCx") rfl

/-- C3: in every poll cycle, every notification in the event trace is
emitted only after a seen-videos store write whose persisted set already
contains the notified item id: detection is persisted before the
notification is attempted. -/
theorem C3_persist_before_notify (items : List SearchItem)
    (seen : List String) :
    savedBeforeNotified seen (pollCycle items seen).2 = true := by
  induction items generalizing seen with
  | nil => rfl
  | cons item rest ih =>
      by_cases hmem : item.videoId ∈ seen
      · simpa [pollCycle, hmem] using ih seen
      · simp [pollCycle, hmem, savedBeforeNotified]
        exact ih (item.videoId :: seen)

/-- C4: an item id absent from the seen set that is returned by the
search in two successive poll cycles is notified exactly once and
first-added by exactly one seen-store write across the two cycles; an
id already present in the seen set produces no notification and no
first-adding write. -/
theorem C4_poller_dedup (items1 items2 : List SearchItem)
    (seen : List String) (v : String) :
    (v ∉ seen → v ∈ items1.map SearchItem.videoId →
        v ∈ items2.map SearchItem.videoId →
      countNotify v (twoCycles items1 items2 seen).2 = 1 ∧
      countSaveAdding v seen (twoCycles items1 items2 seen).2 = 1) ∧
    (v ∈ seen →
      countNotify v (twoCycles items1 items2 seen).2 = 0 ∧
      countSaveAdding v seen (twoCycles items1 items2 seen).2 = 0) := by
  have htrace : (twoCycles items1 items2 seen).2
      = (pollCycle items1 seen).2
        ++ (pollCycle items2 (pollCycle items1 seen).1).2 := rfl
  constructor
  · intro hv h1 _h2
    obtain ⟨hn1, hs1, hm1⟩ := pollCycle_new items1 seen v hv h1
    have hn2 := countNotify_of_seen items2 (pollCycle items1 seen).1 v hm1
    have hs2 := countSaveAdding_of_seen items2 (pollCycle items1 seen).1
      v hm1
    constructor
    · rw [htrace, countNotify_append, hn1, hn2]
    · rw [htrace, countSaveAdding_append, hs1, lastSaved_pollCycle, hs2]
  · intro hv
    have hn1 := countNotify_of_seen items1 seen v hv
    have hs1 := countSaveAdding_of_seen items1 seen v hv
    have hm1 := pollCycle_mem_final items1 seen v hv
    have hn2 := countNotify_of_seen items2 (pollCycle items1 seen).1 v hm1
    have hs2 := countSaveAdding_of_seen items2 (pollCycle items1 seen).1
      v hm1
    constructor
    · rw [htrace, countNotify_append, hn1, hn2]
    · rw [htrace, countSaveAdding_append, hs1, lastSaved_pollCycle, hs2]

/-- C4 witness: the id `v1` returned by both cycles against an empty
seen set is notified once with one first-adding write; the id `w`
already in the seen set produces zero of each. -/
theorem C4_poller_dedup_witness :
    (countNotify ("v1")
        (twoCycles [SearchItem.mk ("v1") ("t") ("c") ("p")]
          [SearchItem.mk ("v1") ("t") ("c") ("p")] []).2 = 1 ∧
      countSaveAdding ("v1") []
        (twoCycles [SearchItem.mk ("v1") ("t") ("c") ("p")]
          [SearchItem.mk ("v1") ("t") ("c") ("p")] []).2 = 1) ∧
    (countNotify ("w") (twoCycles [] [] [("w")]).2 = 0 ∧
      countSaveAdding ("w") [("w")] (twoCycles [] [] [("w")]).2 = 0) := by
  constructor
  · exact (C4_poller_dedup [SearchItem.mk ("v1") ("t") ("c") ("p")]
      [SearchItem.mk ("v1") ("t") ("c") ("p")] [] ("v1")).1
      (by decide) (by decide) (by decide)
  · exact (C4_poller_dedup [] [] [("w")] ("w")).2 (by decide)

/-- C5 counterexample: a GET request carrying the `hub.challenge`
parameter with the empty string as value is answered 400, not 200 as
the claim asserts for every value. -/
theorem C5_counterexample :
    (youtube_webhook_get (some (""))).status ≠ 200 ∧
    (youtube_webhook_get (some (""))).status = 400 := by
  constructor
  · decide
  · rfl

/-- C5 (amended): a GET request with a nonempty `hub.challenge` value
`t` is answered with status 200, body exactly `t`, content type
text/plain; an absent — or empty-valued — parameter is answered 400. -/
theorem C5_challenge_echo (t : String) (h : t ≠ "") :
    youtube_webhook_get (some t) = ⟨200, t, "text/plain"⟩ ∧
    (youtube_webhook_get none).status = 400 ∧
    (youtube_webhook_get (some (""))).status = 400 := by
  refine ⟨?_, rfl, rfl⟩
  simp [youtube_webhook_get, h]

/-- C5 witness: the challenge token `abc123` is echoed back verbatim
with status 200 and content type text/plain. -/
theorem C5_challenge_echo_witness :
    (("abc123") : String) ≠ ("") ∧
    youtube_webhook_get (some ("abc123"))
      = ⟨200, ("abc123"), ("text/plain")⟩ :=
  ⟨by decide, (C5_challenge_echo ("abc123") (by decide)).1⟩

/-- C7: loading the subscription store from an absent file or from an
unreadable (truncated or corrupt) file returns the empty mapping, and
loading the seen-videos store likewise yields the empty set; both loads
are total functions and cannot raise. -/
theorem C7_permissive_load (raw : String) :
    load_subscriptions JFile.absent = [] ∧
    load_subscriptions (JFile.unreadable raw) = [] ∧
    load_seen_videos JFile.absent = [] ∧
    load_seen_videos (JFile.unreadable raw) = [] :=
  ⟨rfl, rfl, rfl, rfl⟩

/-- C8: re-subscribing a channel id already present in the store
overwrites the existing entry: the key sequence and size of the mapping
are unchanged and the entry for that channel id holds the new keyword
and callback url. -/
theorem C8_resubscribe_overwrites (subs : SubsMap) (channel_id : String)
    (hubOk : Bool) (callback_url : String) (keyword : Option String)
    (h : mapMem subs channel_id = true) :
    ((subscribe_to_youtube_channel (some channel_id) hubOk callback_url
        keyword subs).subs).map Prod.fst = subs.map Prod.fst ∧
    (subscribe_to_youtube_channel (some channel_id) hubOk callback_url
        keyword subs).subs.length = subs.length ∧
    mapLookup (subscribe_to_youtube_channel (some channel_id) hubOk
        callback_url keyword subs).subs channel_id
      = some ⟨keyword, callback_url⟩ := by
  have hsubs : (subscribe_to_youtube_channel (some channel_id) hubOk
      callback_url keyword subs).subs
      = mapInsert subs channel_id ⟨keyword, callback_url⟩ := by
    cases hubOk
    · rfl
    · rfl
  rw [hsubs]
  exact ⟨mapInsert_keys_of_mem subs channel_id _ h,
    mapInsert_length_of_mem subs channel_id _ h,
    mapLookup_mapInsert subs channel_id _⟩

/-- C8 witness: re-subscribing `UCa` (already mapped to keyword `old`)
with keyword `new` leaves the size at one and stores the new keyword. -/
theorem C8_resubscribe_overwrites_witness :
    mapMem [(("UCa"), Sub.mk (some ("old")) ("cb"))] ("UCa") = true ∧
    (subscribe_to_youtube_channel (some ("UCa")) true ("cb2")
        (some ("new"))
        [(("UCa"), Sub.mk (some ("old")) ("cb"))]).subs.length = 1 ∧
    mapLookup (subscribe_to_youtube_channel (some ("UCa")) true ("cb2")
        (some ("new"))
        [(("UCa"), Sub.mk (some ("old")) ("cb"))]).subs ("UCa")
      = some (Sub.mk (some ("new")) ("cb2")) := by
  have h := C8_resubscribe_overwrites
    [(("UCa"), Sub.mk (some ("old")) ("cb"))] ("UCa") true ("cb2")
    (some ("new")) (by decide)
  exact ⟨by decide, h.2.1, h.2.2⟩

/-- C6 counterexample: for the identifier `somehandle` (not in the
empty store) whose handle resolution fails, the claim "unsubscribe still
issues the hub unsubscribe request" is false: the call returns false
with an empty effect trace — no hub request was issued. -/
theorem C6_counterexample :
    (unsubscribe_from_youtube_channel ("somehandle") none true ("cb")
        []).trace = [] ∧
    (unsubscribe_from_youtube_channel ("somehandle") none true ("cb")
        []).ret = false := by
  constructor
  · simp [unsubscribe_from_youtube_channel, resolveIdentifier,
      startsWithUC]
  · simp [unsubscribe_from_youtube_channel, resolveIdentifier,
      startsWithUC]

/-- C6 (amended): for every channel identifier that yields a channel id
(it starts with `UC`, or its handle resolution succeeds) and whose
channel id is not present in the Subscription Store, unsubscribe still
issues exactly the hub unsubscribe request, treats the local removal as
a no-op (the store is unchanged, no store write), and returns the hub
outcome — in particular false, not an exception, on hub failure; an
identifier whose handle resolution fails returns false without issuing
the hub request. -/
theorem C6_unsub_missing_entry (channel_identifier : String)
    (resolve : Option String) (hubOk : Bool) (callback_url : String)
    (subs : SubsMap) :
    (∀ channel_id,
      resolveIdentifier channel_identifier resolve = some channel_id →
      mapMem subs channel_id = false →
      (unsubscribe_from_youtube_channel channel_identifier resolve hubOk
          callback_url subs).trace
        = [Ev.hubUnsubscribe (topicUrl channel_id) callback_url] ∧
      (unsubscribe_from_youtube_channel channel_identifier resolve hubOk
          callback_url subs).subs = subs ∧
      (unsubscribe_from_youtube_channel channel_identifier resolve hubOk
          callback_url subs).ret = hubOk) ∧
    (resolveIdentifier channel_identifier resolve = none →
      (unsubscribe_from_youtube_channel channel_identifier resolve hubOk
          callback_url subs).ret = false ∧
      (unsubscribe_from_youtube_channel channel_identifier resolve hubOk
          callback_url subs).trace = []) := by
  constructor
  · intro channel_id hres hmem
    cases hubOk
    · simp [unsubscribe_from_youtube_channel, hres, hmem]
    · simp [unsubscribe_from_youtube_channel, hres, hmem]
  · intro hres
    cases hubOk
    · simp [unsubscribe_from_youtube_channel, hres]
    · simp [unsubscribe_from_youtube_channel, hres]

/-- C6 witness: unsubscribing the raw channel id `UCmissing` against an
empty store issues the hub request, leaves the store empty, and
returns true on hub success; the unresolvable handle `nohandle` returns
false with no hub request. -/
theorem C6_unsub_missing_entry_witness :
    ((unsubscribe_from_youtube_channel ("UCmissing") none true ("cb")
        []).trace
      = [Ev.hubUnsubscribe (topicUrl ("UCmissing")) ("cb")] ∧
    (unsubscribe_from_youtube_channel ("UCmissing") none true ("cb")
        []).subs = [] ∧
    (unsubscribe_from_youtube_channel ("UCmissing") none true ("cb")
        []).ret = true) ∧
    ((unsubscribe_from_youtube_channel ("nohandle") none true ("cb")
        []).ret = false ∧
    (unsubscribe_from_youtube_channel ("nohandle") none true ("cb")
        []).trace = []) := by
  constructor
  · exact (C6_unsub_missing_entry ("UCmissing") none true ("cb") []).1
      ("UCmissing") (by decide) (by decide)
  · exact (C6_unsub_missing_entry ("nohandle") none true ("cb") []).2
      (by decide)

/-- C9: when the hub unsubscribe request fails,
`unsubscribe_from_youtube_channel` leaves the Subscription Store
unchanged, performs no store write, and returns false: entry deletion
and store save happen only after a successful hub response. -/
theorem C9_hub_failure_keeps_store (channel_identifier : String)
    (resolve : Option String) (callback_url : String) (subs : SubsMap) :
    (unsubscribe_from_youtube_channel channel_identifier resolve false
        callback_url subs).subs = subs ∧
    noStoreSave (unsubscribe_from_youtube_channel channel_identifier
        resolve false callback_url subs).trace = true ∧
    (unsubscribe_from_youtube_channel channel_identifier resolve false
        callback_url subs).ret = false := by
  cases hres : resolveIdentifier channel_identifier resolve with
  | none => simp [unsubscribe_from_youtube_channel, hres, noStoreSave]
  | some channel_id =>
      simp [unsubscribe_from_youtube_channel, hres, noStoreSave]

/-- C10: a POST whose body is well-formed XML without an Atom entry
element is answered 200, and the handler neither reloads the
Subscription Store nor invokes the keyword-match check. -/
theorem C10_no_entry_short_circuits (subsFile : JFile SubsMap)
    (checkKw : String → String → Bool) :
    youtube_webhook_post XmlBody.noEntry subsFile checkKw
      = ⟨⟨200, "OK", "text/html"⟩, false, false, false⟩ :=
  rfl

end Yt3
